import Mathlib

/-
Verification of the gforms library (a Google-Forms client).

The definitions below are a shallow embedding of the Python sources:
  gforms/elements.py       (Page, Short, Duration, ...)
  gforms/elements_base.py  (InputElement, ChoiceInput, OtherChoiceInput,
                            ValidatedInput, Grid, TextInput, TimeInput, ...)
  gforms/validators.py     (Validator, CheckboxValidator, GridValidator)
  gforms/options.py        (Option, ActionOption)
  gforms/form.py           (Form._resolve_actions, Form._select_page,
                            Form._iterate_elements)

Python exceptions are modelled with Except: a function that can raise
returns `Except ElemError A`, and the error constructor names the raised
exception class.  Python dicts whose insertion order matters (payloads)
are modelled as association lists.
-/

set_option autoImplicit false

/-- Which exception class was raised (gforms/errors.py), plus builtin
Python exceptions that low-level operations can raise. -/
inductive ElemError where
  | requiredElement
  | invalidText
  | invalidDuration
  | elementTypeError
  | invalidChoice
  | duplicateOther
  | emptyOther
  | misconfiguredElement
  | invalidChoiceCount
  | infiniteLoop
  | notImplementedError
  | keyError
  | indexError
  | fuelExhausted
  deriving DecidableEq, Repr

instance {E A : Type} [DecidableEq E] [DecidableEq A] : DecidableEq (Except E A) := fun x y =>
  match x, y with
  | .ok a, .ok b =>
    if h : a = b then isTrue (by rw [h]) else isFalse (fun hh => by cases hh; exact h rfl)
  | .ok _, .error _ => isFalse (fun hh => by cases hh)
  | .error _, .ok _ => isFalse (fun hh => by cases hh)
  | .error a, .error b =>
    if h : a = b then isTrue (by rw [h]) else isFalse (fun hh => by cases hh; exact h rfl)

/- ===================== Page graph (elements.py, options.py, form.py) ==================== -/

/-- elements_base.py, class _Action: FIRST = -1. -/
def actionFIRST : Int := -1

/-- elements_base.py, class _Action: NEXT = -2. -/
def actionNEXT : Int := -2

/-- elements_base.py, class _Action: SUBMIT = -3. -/
def actionSUBMIT : Int := -3

/-- An option of a choice element, as relevant to navigation:
`action = none` models a plain Option, `action = some a` models an
ActionOption with the raw action id `a` (options.py). -/
structure OptionSpec where
  value : String
  action : Option Int
  deriving DecidableEq, Repr

/-- An action-carrying choice element (ActionChoiceInput) of a page:
its option list and the index of the currently selected option, if any.
`selected = none` models an unset element. -/
structure ElemSpec where
  options : List OptionSpec
  selected : Option Nat
  deriving DecidableEq, Repr

/-- A page as read from the wire document: its id, its recorded
previous-action (Page._prev_action: FIRST / NEXT / SUBMIT / a page id),
and its action-carrying child elements in document order. -/
structure PageSpec where
  id : Int
  prevAction : Int
  elems : List ElemSpec
  deriving DecidableEq, Repr

/-- A reference to a page of the form: either the page at index `i` of the
document-order page list, or the distinguished Page.SUBMIT sentinel. -/
inductive PageRef where
  | p (i : Nat)
  | submitSentinel
  deriving DecidableEq, Repr

/-- Index of the last page in the list whose id is `a` (starting the count
at `i`).  Python builds `mapping = {page.id: page for page in pages}`, so on
duplicate ids the later page wins. -/
def lastIndexWithId (a : Int) : List PageSpec → Nat → Option Nat
  | [], _ => none
  | pg :: rest, i =>
    match lastIndexWithId a rest (i + 1) with
    | some j => some j
    | none => if pg.id = a then some i else none

/-- Lookup in the id-to-page mapping built by Form._resolve_actions:
`mapping = {page.id: page}` followed by `mapping[_Action.SUBMIT] = Page.SUBMIT`
(so the SUBMIT key always maps to the sentinel). `none` models a KeyError. -/
def lookupId (pages : List PageSpec) (a : Int) : Option PageRef :=
  if a = actionSUBMIT then some .submitSentinel
  else
    match lastIndexWithId a pages 0 with
    | some j => some (.p j)
    | none => none

/-- The tail of Page._resolve_actions (elements.py lines 160-171): computes
the resolved default next page (Page._next_page) of the page at index `i`
from its document-order successor.  `next_page is None` (last page) keeps
the default at none; a successor recording SUBMIT clears it; NEXT keeps the
document-order successor; any other value is looked up as a page id
(raising KeyError when absent). -/
def resolvedDefaultNext (pages : List PageSpec) (i : Nat) : Except ElemError (Option PageRef) :=
  match pages.get? (i + 1) with
  | none => .ok none
  | some succ =>
    if succ.prevAction = actionSUBMIT then .ok none
    else if succ.prevAction = actionNEXT then .ok (some (.p (i + 1)))
    else
      match lookupId pages succ.prevAction with
      | some r => .ok (some r)
      | none => .error .keyError

/-- ActionOption._resolve_action (options.py lines 79-86) for an option of
an element on page `i` with raw action id `a`: when the owning page is the
last one (`next_page is None`) the option stays unresolved ("ignored");
otherwise NEXT resolves to the document-order successor and any other id is
looked up in the mapping. -/
def resolveOptionAction (pages : List PageSpec) (i : Nat) (a : Int) :
    Except ElemError (Option PageRef) :=
  match pages.get? (i + 1) with
  | none => .ok none
  | some _ =>
    if a = actionNEXT then .ok (some (.p (i + 1)))
    else
      match lookupId pages a with
      | some r => .ok (some r)
      | none => .error .keyError

/-- The value of `elem.next_page` for an ActionChoiceInput on page `i`
after its current value was set (elements_base.py: ActionChoiceInput
_set_choices resets next_page to None, then _add_choice copies the chosen
ActionOption resolved target; a plain Option leaves it None). -/
def elemNextAfterSelect (pages : List PageSpec) (i : Nat) (e : ElemSpec) :
    Except ElemError (Option PageRef) :=
  match e.selected with
  | none => .ok none
  | some k =>
    match e.options.get? k with
    | none => .ok none
    | some o =>
      match o.action with
      | none => .ok none
      | some a => resolveOptionAction pages i a

/-- The navigation-relevant state of a page after Form._resolve_actions:
its resolved default next page and the `next_page` attribute of each
action-carrying child element in document order. -/
structure ResolvedPage where
  defaultNext : Option PageRef
  elemNexts : List (Option PageRef)
  deriving DecidableEq, Repr

/-- Resolves the page at index `i`: element actions and the default next
page (Page._resolve_actions driven by Form._resolve_actions). -/
def resolvePage (pages : List PageSpec) (i : Nat) : Except ElemError ResolvedPage :=
  match (match pages.get? i with
         | none => Except.ok []
         | some pg => pg.elems.mapM (elemNextAfterSelect pages i)) with
  | .error e => .error e
  | .ok ens =>
    match resolvedDefaultNext pages i with
    | .error e => .error e
    | .ok dn => .ok ⟨dn, ens⟩

/-- Page.next_page (elements.py lines 104-113): None when the resolved
default is None; otherwise the default, where every element whose
`next_page` is set overrides the running result in document order. -/
def next_page (rp : ResolvedPage) : Option PageRef :=
  match rp.defaultNext with
  | none => none
  | some np => some (rp.elemNexts.foldl (fun acc o => o.getD acc) np)

/-- `page.next_page()` for the page at index `i` of a resolved form. -/
def pageNext (pages : List PageSpec) (i : Nat) : Except ElemError (Option PageRef) :=
  (resolvePage pages i).map next_page

/-- `r.next_page()` for a page reference: the SUBMIT sentinel has no
elements and a None default, so its next page is always None. -/
def refNext (pages : List PageSpec) : PageRef → Except ElemError (Option PageRef)
  | .submitSentinel => .ok none
  | .p i => pageNext pages i

/- ===================== Fill walk and loop detection (form.py) ==================== -/

/-- Form._select_page (form.py lines 677-684): re-entering an
already-selected page raises InfiniteLoop, otherwise the page joins the
selected-pages set. -/
def select_page (selected : List PageRef) (pg : PageRef) : Except ElemError (List PageRef) :=
  if pg ∈ selected then .error .infiniteLoop else .ok (pg :: selected)

/-- The page-walking loop of Form._iterate_elements (form.py lines
766-807): starting from a page, select it (raising InfiniteLoop on a
repeat) and move to `page.next_page()` until that is None.  Element values
are already set, as in Form.validate.  The fuel argument only bounds the
recursion; with fuel above the page count it is never exhausted, since
every step either stops or adds a fresh page to the selected set. -/
def walkPages (pages : List PageSpec) : Nat → List PageRef → Option PageRef →
    Except ElemError (List PageRef)
  | 0, selected, page =>
    match page with
    | none => .ok selected
    | some _ => .error .fuelExhausted
  | fuel + 1, selected, page =>
    match page with
    | none => .ok selected
    | some pg => do
      let selected ← select_page selected pg
      let np ← refNext pages pg
      walkPages pages fuel selected np

/-- Form._iterate_elements for a loaded form: clears the selected set
(Form._invalidate_path) and walks from page 0.  Returns the selected pages
(most recent first) when the realized path terminates. -/
def iterate_elements (pages : List PageSpec) : Except ElemError (List PageRef) :=
  walkPages pages (pages.length + 2) [] (some (.p 0))

/- ===================== Grid misconfiguration (elements_base.py) ==================== -/

/-- GridTypes (validators.py): UNKNOWN = -1, EXCLUSIVE_COLUMNS = 205. -/
inductive GridTypes where
  | unknown
  | exclusiveColumns
  deriving DecidableEq, Repr

/-- A GridValidator as stored on a decoded Grid: whether its type tag was
unrecognized, its subtype, and the bad-arguments flag. -/
structure GridValidator where
  typeUnknown : Bool
  subtype : GridTypes
  bad_args : Bool
  deriving DecidableEq, Repr

/-- Validator.has_unknown_type (validators.py lines 90-91) for a grid
validator: the type is UNKNOWN or the subtype is UNKNOWN. -/
def grid_has_unknown_type (v : GridValidator) : Bool :=
  v.typeUnknown || decide (v.subtype = .unknown)

/-- A decoded Grid, as relevant to misconfiguration checks: RadioGrid has
`multichoice = false`, CheckboxGrid has `multichoice = true`
(Grid.parse_multichoice); `cols` is an alias for the option values. -/
structure Grid where
  required : Bool
  multichoice : Bool
  rows : List String
  cols : List String
  validator : Option GridValidator
  deriving DecidableEq, Repr

/-- Grid._is_misconfigured (elements_base.py lines 665-667): the validator
subtype is EXCLUSIVE_COLUMNS and there are fewer columns than rows. -/
def grid_is_misconfigured_inner (g : Grid) (v : GridValidator) : Bool :=
  decide (v.subtype = .exclusiveColumns) && decide (g.cols.length < g.rows.length)

/-- ValidatedInput.is_misconfigured (elements_base.py lines 575-583)
instantiated at Grid: false without a validator, false for an
unknown-type or bad-arguments validator, false for an optional element,
otherwise Grid._is_misconfigured. -/
def grid_is_misconfigured (g : Grid) : Bool :=
  match g.validator with
  | none => false
  | some v =>
    if grid_has_unknown_type v || v.bad_args then false
    else if !g.required then false
    else grid_is_misconfigured_inner g v

/- ===================== Validators (validators.py) ==================== -/

/-- Validator.validate (validators.py lines 84-91), the base-class entry
point shared by every validator class: an unknown type or bad arguments
short-circuit to success, otherwise the concrete class check `inner`
(the abstract _validate) runs. -/
def validator_validate (hasUnknown bad_args : Bool) (inner : Except ElemError Unit) :
    Except ElemError Unit :=
  if hasUnknown || bad_args then .ok () else inner

/-- CheckboxTypes (validators.py): UNKNOWN = -1, AT_LEAST = 200,
AT_MOST = 201, EXACTLY = 204. -/
inductive CheckboxTypes where
  | unknown
  | atLeast
  | atMost
  | exactly
  deriving DecidableEq, Repr

/-- A CheckboxValidator: whether its type tag was unrecognized, its
subtype, its parsed integer arguments (args is a singleton list for the
three known subtypes when parsing succeeded) and the bad-arguments flag. -/
structure CheckboxValidator where
  typeUnknown : Bool
  subtype : CheckboxTypes
  args : List Int
  bad_args : Bool
  deriving DecidableEq, Repr

/-- Validator.has_unknown_type for a checkbox validator. -/
def cb_has_unknown_type (v : CheckboxValidator) : Bool :=
  v.typeUnknown || decide (v.subtype = .unknown)

/-- CheckboxValidator._validate (validators.py lines 348-362).  The
Checkboxes element has a single entry: `values0` is `values[0]` and
`other_value` is `elem._other_value`.  The count of selected options adds
one when the "other" value is set (even to the empty string); the count is
compared to `args[0]` (an IndexError on an empty argument list, which is
unreachable after a successful parse). -/
def checkbox_validate (v : CheckboxValidator) (values0 : List String)
    (other_value : Option String) : Except ElemError Unit :=
  match v.args with
  | [] => .error .indexError
  | required :: _ =>
    let cnt : Int := values0.length + (match other_value with | some _ => 1 | none => 0)
    match v.subtype with
    | .atLeast => if cnt ≥ required then .ok () else .error .invalidChoiceCount
    | .atMost => if cnt ≤ required then .ok () else .error .invalidChoiceCount
    | .exactly => if cnt = required then .ok () else .error .invalidChoiceCount
    | .unknown => .error .notImplementedError

/-- Validator.validate specialized to CheckboxValidator (the inherited
entry point dispatching to CheckboxValidator._validate). -/
def cb_validator_validate (v : CheckboxValidator) (values0 : List String)
    (other_value : Option String) : Except ElemError Unit :=
  validator_validate (cb_has_unknown_type v) v.bad_args (checkbox_validate v values0 other_value)

/- ===================== Choice inputs (elements_base.py, options.py) ==================== -/

/-- A choice option as decoded by Option._parse (options.py lines 27-31):
`value` is the wire value with `None` replaced by the empty string, and
`other` marks the free-text "Other" option. -/
structure ChoiceOption where
  value : String
  other : Bool
  deriving DecidableEq, Repr

/-- The value state of a single-entry choice element: the selected option
values (`self._values[0]`) and, for elements with an "Other" option, the
free-text value (`self._other_value`). -/
structure ChoiceState where
  values : List String
  otherValue : Option String
  deriving DecidableEq, Repr

/-- ChoiceInput._find_option (elements_base.py lines 367-376) for a string
choice value: the first option with a matching value, else InvalidChoice. -/
def find_option (options : List ChoiceOption) (value : String) : Except ElemError ChoiceOption :=
  match options.find? (fun opt => opt.value == value) with
  | some opt => .ok opt
  | none => .error .invalidChoice

/-- OtherChoiceInput._find_option (elements_base.py lines 512-528) for a
string choice value: without an "Other" option it falls back to the base
lookup; otherwise a non-matching string raises DuplicateOther when the
"Other" value is already set during this assignment, else it becomes the
"Other" option value. -/
def find_option_other (options : List ChoiceOption) (other_option : Option ChoiceOption)
    (otherValue : Option String) (value : String) : Except ElemError ChoiceOption :=
  match other_option with
  | none => find_option options value
  | some oo =>
    match options.find? (fun opt => opt.value == value) with
    | some opt => .ok opt
    | none =>
      match otherValue with
      | some _ => .error .duplicateOther
      | none => .ok { oo with value := value }

/-- OtherChoiceInput._add_choice (elements_base.py lines 530-534) together
with the base ChoiceInput._add_choice: an "Other" choice sets the
free-text value, any other choice appends its value. -/
def add_choice (st : ChoiceState) (choice : ChoiceOption) : ChoiceState :=
  if choice.other then { st with otherValue := some choice.value }
  else { st with values := st.values ++ [choice.value] }

/-- The per-choice loop of ChoiceInput._set_choices for the single entry of
a 1D element, with OtherChoiceInput._find_option threaded through the
current "Other" value (which _add_choice mutates). -/
def set_choices_loop (options : List ChoiceOption) (other_option : Option ChoiceOption)
    (st : ChoiceState) : List String → Except ElemError ChoiceState
  | [] => .ok st
  | c :: rest =>
    match find_option_other options other_option st.otherValue c with
    | .error e => .error e
    | .ok opt => set_choices_loop options other_option (add_choice st opt) rest

/-- OtherChoiceInput._set_choices (elements_base.py lines 508-510) for one
entry of string choices: the "Other" value is reset to None, then every
choice is looked up and added. -/
def set_choices_str (options : List ChoiceOption) (other_option : Option ChoiceOption)
    (choices : List String) : Except ElemError ChoiceState :=
  set_choices_loop options other_option ⟨[], none⟩ choices

/-- set_value of a 1D choice element (e.g. ActionChoiceInput.set_value,
elements_base.py lines 894-906) applied to a single string: _to_choice_list
wraps the string into a one-element choice list. -/
def choice_set_value_str (options : List ChoiceOption) (other_option : Option ChoiceOption)
    (s : String) : Except ElemError ChoiceState :=
  set_choices_str options other_option [s]

/- ===================== Payload serialization (elements_base.py) ==================== -/

/-- InputElement._submit_id (elements_base.py lines 239-241). -/
def submit_id (entry_id : Int) : String := s!"entry.{entry_id}"

/-- InputElement.payload (elements_base.py lines 205-215) for a
single-entry element: the entry key maps to the value list when the value
is non-empty, otherwise the payload is empty. -/
def input_payload (entry_id : Int) (values : List String) : List (String × List String) :=
  if values.isEmpty then [] else [(submit_id entry_id, values)]

/-- `payload.setdefault(key, []).append(x)` on an insertion-ordered dict:
appends `x` to the list at `key`, inserting the key at the end when it is
absent. -/
def dict_setdefault_append (d : List (String × List String)) (key : String) (x : String) :
    List (String × List String) :=
  match d with
  | [] => [(key, [x])]
  | (k, v) :: rest =>
    if k = key then (k, v ++ [x]) :: rest
    else (k, v) :: dict_setdefault_append rest key x

/-- `payload[key] = v` on an insertion-ordered dict: replaces the value at
`key`, inserting the key at the end when it is absent. -/
def dict_assign (d : List (String × List String)) (key : String) (v : List String) :
    List (String × List String) :=
  match d with
  | [] => [(key, v)]
  | (k, w) :: rest =>
    if k = key then (k, v) :: rest
    else (k, w) :: dict_assign rest key v

/-- OtherChoiceInput.payload (elements_base.py lines 478-489): the base
payload, and when the "Other" value is truthy (set and non-empty) the
sentinel token "__other_option__" is appended under the main key and the
free text is stored under the sibling .other_option_response key. -/
def other_payload (entry_id : Int) (st : ChoiceState) : List (String × List String) :=
  let payload := input_payload entry_id st.values
  match st.otherValue with
  | none => payload
  | some ov =>
    if ov = "" then payload
    else
      let main_key := submit_id entry_id
      let other_key := main_key ++ ".other_option_response"
      dict_assign (dict_setdefault_append payload main_key "__other_option__") other_key [ov]

/- ===================== Duration (elements.py lines 450-492) ==================== -/

/-- A value passed to Duration.set_value: the Value.EMPTY sentinel, a
datetime.timedelta (held exactly as a whole number of microseconds, the
resolution of timedelta), or a value of any other type. -/
inductive DurationValue where
  | emptyValue
  | timedeltaValue (micro : Int)
  | wrongType
  deriving DecidableEq, Repr

/-- The state of a Duration element: the hour/minute/second parts set by
_set_time and the stored timedelta in microseconds. -/
structure DurationState where
  hour : Option Int
  minute : Option Int
  second : Option Int
  timedelta : Option Int
  deriving DecidableEq, Repr

/-- Duration.set_value (elements.py lines 455-476).  For a timedelta,
`seconds = int(value.total_seconds())` truncates toward zero (Int.tdiv),
and the parts use Python floor division and nonnegative remainder
(Int.fdiv and Int.emod); any other type raises ElementTypeError. -/
def duration_set_value : DurationValue → Except ElemError DurationState
  | .emptyValue => .ok ⟨none, none, none, none⟩
  | .timedeltaValue micro =>
    let seconds := Int.tdiv micro 1000000
    .ok ⟨some (Int.fdiv seconds 3600), some (Int.emod (Int.fdiv seconds 60) 60),
         some (Int.emod seconds 60), some micro⟩
  | .wrongType => .error .elementTypeError

/-- TimeInput._is_empty (elements_base.py lines 768-769). -/
def duration_is_empty (st : DurationState) : Bool :=
  st.hour.isNone && st.minute.isNone && st.second.isNone

/-- Duration._validate (elements.py lines 478-484) on top of
TimeInput._validate: RequiredElement for a required empty element, then
InvalidDuration when `total_seconds()` is at least 73 * 3600 or negative
(the exact rational number of seconds is micro / 1000000). -/
def duration_validate (required : Bool) (st : DurationState) : Except ElemError Unit :=
  if required && duration_is_empty st then .error .requiredElement
  else
    match st.timedelta with
    | none => .ok ()
    | some micro =>
      let seconds : ℚ := (micro : ℚ) / 1000000
      if seconds ≥ 73 * 3600 ∨ seconds < 0 then .error .invalidDuration else .ok ()

/- ===================== Text inputs (elements.py, elements_base.py) ==================== -/

/-- A value passed to TextInput.set_value: a string, the Value.EMPTY
sentinel, or a value of any other type. -/
inductive TextValue where
  | strValue (s : String)
  | emptyValue
  | wrongType
  deriving DecidableEq, Repr

/-- TextInput.set_value (elements_base.py lines 857-876): an empty string
is converted to Value.EMPTY; a non-empty string is stored as the entry
value; any other type raises ElementTypeError.  The result is the stored
`self._value` list. -/
def text_set_value : TextValue → Except ElemError (List String)
  | .strValue s => if s = "" then .ok [] else .ok [s]
  | .emptyValue => .ok []
  | .wrongType => .error .elementTypeError

/-- InputElement._validate_entry (elements_base.py lines 290-292) for a
single-entry element: RequiredElement when required and empty.  Paragraph
adds nothing to this check. -/
def input_validate_entry (required : Bool) (value : List String) : Except ElemError Unit :=
  if required && value.isEmpty then .error .requiredElement else .ok ()

/-- Short._validate_entry (elements.py lines 220-226): the base check,
then, for a non-empty value, InvalidText when the value contains a
newline (the Python substring test `"\n" in value` of a one-character
needle, expressed as membership in the character list).  (Validator
checks of ValidatedInput only apply when a validator is attached; a plain
Short has none.) -/
def short_validate_entry (required : Bool) (value : List String) : Except ElemError Unit :=
  match input_validate_entry required value with
  | .error e => .error e
  | .ok _ =>
    match value with
    | [] => .ok ()
    | v :: _ => if v.data.contains '\n' then .error .invalidText else .ok ()

/- ===================== Concrete forms used by the theorems ==================== -/

/-- A four-page form: the first page (id -1, as built by Page.first), then
P0 (id 100), P1 (id 200) whose recorded previous-action is the explicit
page id 100 of P0, and P2 (id 300) whose recorded previous-action is NEXT.
No page has action options. -/
def c1Pages : List PageSpec :=
  [⟨-1, actionNEXT, []⟩, ⟨100, actionNEXT, []⟩, ⟨200, 100, []⟩, ⟨300, actionNEXT, []⟩]

/-- A two-page form whose second page records previous-action SUBMIT. -/
def c1SubmitPages : List PageSpec :=
  [⟨-1, actionNEXT, []⟩, ⟨50, actionSUBMIT, []⟩]

/-- A two-page form whose second page records previous-action SUBMIT and
whose first page carries one choice element whose single action option
(action FIRST) is currently selected. -/
def c3Pages : List PageSpec :=
  [⟨-1, actionNEXT, [⟨[⟨"First", some actionFIRST⟩], some 0⟩]⟩, ⟨20, actionSUBMIT, []⟩]

/-- A two-page form: page 0 carries one choice element whose single option
targets page 0 (action FIRST), and the option is currently selected. -/
def loopFormPages : List PageSpec :=
  [⟨-1, actionNEXT, [⟨[⟨"First", some actionFIRST⟩], some 0⟩]⟩, ⟨10, actionNEXT, []⟩]

/-- The same two-page form with the looping option not selected. -/
def noLoopFormPages : List PageSpec :=
  [⟨-1, actionNEXT, [⟨[⟨"First", some actionFIRST⟩], none⟩]⟩, ⟨10, actionNEXT, []⟩]

/-- The grid refuting claim C2: a required multi-choice grid (a
CheckboxGrid) with an exclusive-columns validator, two rows and one
column. -/
def c2Grid : Grid :=
  { required := true, multichoice := true, rows := ["r1", "r2"], cols := ["c1"],
    validator := some { typeUnknown := false, subtype := .exclusiveColumns, bad_args := false } }

/- ===================== Theorems ==================== -/

/-- If resolving a page succeeds, its default next page is the value
computed by resolvedDefaultNext. -/
theorem resolvePage_defaultNext (pages : List PageSpec) (i : Nat) (rp : ResolvedPage)
    (h : resolvePage pages i = Except.ok rp) :
    resolvedDefaultNext pages i = Except.ok rp.defaultNext := by
  unfold resolvePage at h
  cases hE : (match pages.get? i with
              | none => Except.ok ([] : List (Option PageRef))
              | some pg => pg.elems.mapM (elemNextAfterSelect pages i)) with
  | error e => rw [hE] at h; simp at h
  | ok ens =>
    rw [hE] at h
    cases hD : resolvedDefaultNext pages i with
    | error e => rw [hD] at h; simp at h
    | ok dn =>
      rw [hD] at h
      simp at h
      rw [← h]

/-- Claim C1, counterexample.  In the configuration demanded by the claim
(P1 records the explicit page id of P0, P2 records NEXT; here P0, P1, P2
are the pages at indices 1, 2, 3 of c1Pages), the code resolves
P0.next_page() to P0 itself (the recorded id creates a self-loop) and
P1.next_page() to P2 — not P0.next_page() = P1 and P1.next_page() = P0 as
the claim states. -/
theorem c1_counterexample :
    pageNext c1Pages 1 = Except.ok (some (.p 1)) ∧
    pageNext c1Pages 2 = Except.ok (some (.p 3)) ∧
    ¬(pageNext c1Pages 1 = Except.ok (some (.p 2)) ∧
      pageNext c1Pages 2 = Except.ok (some (.p 1))) := by
  decide

/-- Claim C1, amended: with P1 recording the explicit page id of P0 and P2
recording NEXT, and no action options selected, P0.next_page() equals P0
and P1.next_page() equals P2; and every page whose document-order
successor records previous-action SUBMIT has next_page() = None. -/
theorem c1_page_graph :
    (pageNext c1Pages 1 = Except.ok (some (.p 1)) ∧
     pageNext c1Pages 2 = Except.ok (some (.p 3))) ∧
    ∀ (pages : List PageSpec) (i : Nat) (succ : PageSpec) (rp : ResolvedPage),
      pages.get? (i + 1) = some succ → succ.prevAction = actionSUBMIT →
      resolvePage pages i = Except.ok rp → next_page rp = none := by
  refine ⟨⟨by decide, by decide⟩, ?_⟩
  intro pages i succ rp hsucc hsub hres
  have hdef : resolvedDefaultNext pages i = Except.ok none := by
    unfold resolvedDefaultNext
    rw [hsucc]
    simp [hsub]
  have h2 := resolvePage_defaultNext pages i rp hres
  rw [hdef] at h2
  simp at h2
  unfold next_page
  rw [← h2]

/-- Claim C1, witness for the amended theorem: in c1SubmitPages the
successor of page 0 records SUBMIT, and page 0 resolves to a state with
next_page() = None. -/
theorem c1_page_graph_witness : next_page ⟨none, []⟩ = none :=
  c1_page_graph.2 c1SubmitPages 0 ⟨50, actionSUBMIT, []⟩ ⟨none, []⟩ rfl rfl (by decide)

/-- Claim C2, counterexample.  The grid c2Grid (required, multi-choice,
exclusive-columns validator, one column, two rows) is reported as
misconfigured by the code although it is not single-choice, so the
claimed biconditional fails: the code never consults the single- vs
multi-choice distinction. -/
theorem c2_counterexample :
    ¬(grid_is_misconfigured c2Grid = true ↔
      (c2Grid.required = true ∧ c2Grid.multichoice = false ∧
       c2Grid.cols.length < c2Grid.rows.length)) := by
  decide

/-- Claim C2, amended: a decoded Grid is misconfigured iff it carries a
validator of known type with well-formed arguments (hence the
exclusive-columns subtype), is required, and has fewer columns than rows —
for single-choice and multi-choice grids alike. -/
theorem c2_grid_misconfigured (g : Grid) :
    grid_is_misconfigured g = true ↔
      ∃ v, g.validator = some v ∧ grid_has_unknown_type v = false ∧ v.bad_args = false ∧
        g.required = true ∧ g.cols.length < g.rows.length := by
  cases hv : g.validator with
  | none => simp [grid_is_misconfigured, hv]
  | some v =>
    obtain ⟨tu, st, ba⟩ := v
    cases tu <;> cases st <;> cases ba <;> cases hr : g.required <;>
      simp [grid_is_misconfigured, grid_is_misconfigured_inner, grid_has_unknown_type, hv, hr]

/-- Claim C2, witness for the amended theorem: a required single-choice
grid with an exclusive-columns validator, one column and two rows is
misconfigured. -/
theorem c2_grid_misconfigured_witness :
    grid_is_misconfigured
      { required := true, multichoice := false, rows := ["r1", "r2"], cols := ["c1"],
        validator := some { typeUnknown := false, subtype := .exclusiveColumns,
                            bad_args := false } } = true := by
  rw [c2_grid_misconfigured]
  exact ⟨_, rfl, rfl, rfl, rfl, by decide⟩

/-- Prepending an element to a list only changes the defaulted last
element when the list is empty. -/
theorem getLast_getD_cons {α : Type} (x d : α) (l : List α) :
    ((x :: l).getLast?).getD d = (l.getLast?).getD x := by
  cases l with
  | nil => rfl
  | cons y ys =>
    rw [List.getLast?_cons_cons]
    cases hl : (y :: ys).getLast? with
    | none => simp at hl
    | some z => rfl

/-- Folding the override step of Page.next_page over a list of optional
targets yields the last present target, defaulting to the start value. -/
theorem foldl_override_getLast {α : Type} (l : List (Option α)) (d : α) :
    l.foldl (fun acc o => o.getD acc) d = ((l.filterMap id).getLast?).getD d := by
  induction l generalizing d with
  | nil => rfl
  | cons o t ih =>
    cases o with
    | none =>
      rw [List.foldl_cons, List.filterMap_cons_none rfl]
      exact ih d
    | some x =>
      rw [List.foldl_cons, List.filterMap_cons_some (show id (some x) = some x from rfl)]
      rw [show (Option.getD (some x) d) = x from rfl, ih x, getLast_getD_cons]

/-- Claim C3, counterexample.  In c3Pages, page 0 has no resolved default
successor (its successor records SUBMIT) while its child element has the
resolved target page 0 selected; next_page() still returns None, so the
selected target does not replace the result as the claim states. -/
theorem c3_counterexample :
    resolvePage c3Pages 0 = Except.ok ⟨none, [some (.p 0)]⟩ ∧
    pageNext c3Pages 0 = Except.ok none ∧
    pageNext c3Pages 0 ≠ Except.ok (some (.p 0)) := by
  decide

/-- Claim C3, amended: when the page has no resolved default successor,
next_page() returns None and element actions are ignored; otherwise
next_page() returns the resolved default, overridden by the resolved
target of each selected action element in document order, the last
present target winning. -/
theorem c3_next_page (rp : ResolvedPage) :
    (rp.defaultNext = none → next_page rp = none) ∧
    ∀ d, rp.defaultNext = some d →
      next_page rp = some (((rp.elemNexts.filterMap id).getLast?).getD d) := by
  constructor
  · intro h
    unfold next_page
    rw [h]
  · intro d h
    unfold next_page
    rw [h]
    show some (rp.elemNexts.foldl (fun acc o => o.getD acc) d) = _
    rw [foldl_override_getLast]

/-- Claim C3, witness for the amended theorem: with default target page 1
and element targets [page 0, unset, page 2], the last element wins. -/
theorem c3_next_page_witness :
    next_page ⟨some (.p 1), [some (.p 0), none, some (.p 2)]⟩ = some (.p 2) :=
  ((c3_next_page ⟨some (.p 1), [some (.p 0), none, some (.p 2)]⟩).2 (.p 1) rfl).trans (by decide)

/-- Claim C4: a validator whose type is unknown or whose arguments failed
to parse validates any value successfully — stated for the shared
base-class entry point Validator.validate and for its instantiation at
CheckboxValidator. -/
theorem c4_unknown_validator_noop :
    (∀ (hasUnknown bad_args : Bool) (inner : Except ElemError Unit),
       hasUnknown = true ∨ bad_args = true →
       validator_validate hasUnknown bad_args inner = Except.ok ()) ∧
    (∀ (v : CheckboxValidator) (values0 : List String) (other_value : Option String),
       cb_has_unknown_type v = true ∨ v.bad_args = true →
       cb_validator_validate v values0 other_value = Except.ok ()) := by
  constructor
  · intro hasUnknown bad_args inner h
    unfold validator_validate
    rcases h with h | h <;> simp [h]
  · intro v values0 other_value h
    unfold cb_validator_validate validator_validate
    rcases h with h | h <;> simp [h]

/-- Claim C4, witness: a checkbox validator with an unrecognized type
accepts a selected value. -/
theorem c4_unknown_validator_noop_witness :
    cb_validator_validate ⟨true, .unknown, [], false⟩ ["Opt1"] none = Except.ok () :=
  c4_unknown_validator_noop.2 ⟨true, .unknown, [], false⟩ ["Opt1"] none (Or.inl rfl)

/-- Claim C6: checkbox-count validation counts the selected options plus
one for a chosen "other" value and compares to the required count n
(EXACTLY passes iff count = n, AT_LEAST iff count >= n, AT_MOST iff
count <= n); with EXACTLY(2), selecting one option fails, exactly two
passes, and three fails. -/
theorem c6_checkbox_count :
    (∀ (n : Int) (values0 : List String) (ov : Option String),
       (cb_validator_validate ⟨false, .exactly, [n], false⟩ values0 ov = Except.ok () ↔
         (values0.length : Int) + (match ov with | some _ => 1 | none => 0) = n) ∧
       (cb_validator_validate ⟨false, .atLeast, [n], false⟩ values0 ov = Except.ok () ↔
         (values0.length : Int) + (match ov with | some _ => 1 | none => 0) ≥ n) ∧
       (cb_validator_validate ⟨false, .atMost, [n], false⟩ values0 ov = Except.ok () ↔
         (values0.length : Int) + (match ov with | some _ => 1 | none => 0) ≤ n)) ∧
    cb_validator_validate ⟨false, .exactly, [2], false⟩ ["Opt1"] none
      = Except.error ElemError.invalidChoiceCount ∧
    cb_validator_validate ⟨false, .exactly, [2], false⟩ ["Opt1", "Opt2"] none = Except.ok () ∧
    cb_validator_validate ⟨false, .exactly, [2], false⟩ ["Opt1", "Opt2", "Opt3"] none
      = Except.error ElemError.invalidChoiceCount := by
  refine ⟨?_, by decide, by decide, by decide⟩
  intro n values0 ov
  refine ⟨?_, ?_, ?_⟩ <;>
    simp [cb_validator_validate, validator_validate, cb_has_unknown_type, checkbox_validate]

/-- Claim C5: the infinite-loop condition fires exactly when the walked
page re-enters the selected-pages set (Form._select_page); the two-page
form whose first page has its self-targeting option selected raises
InfiniteLoop when walked from page 0, while the same form without the
selection walks to completion even though the looping edge exists in the
graph. -/
theorem c5_loop_detection :
    (∀ (selected : List PageRef) (pg : PageRef),
       select_page selected pg = Except.error ElemError.infiniteLoop ↔ pg ∈ selected) ∧
    iterate_elements loopFormPages = Except.error ElemError.infiniteLoop ∧
    iterate_elements noLoopFormPages = Except.ok [.p 1, .p 0] ∧
    resolveOptionAction noLoopFormPages 0 actionFIRST = Except.ok (some (.p 0)) := by
  refine ⟨?_, by decide, by decide, by decide⟩
  intro selected pg
  unfold select_page
  by_cases h : pg ∈ selected
  · simp [h]
  · simp [h]

/-- Claim C7: setting a free-text value on a required Radio with an
"Other" option (a string matching no fixed option) yields exactly the
payload with the sentinel under the entry key and the free text under the
.other_option_response key.  The required flag plays no role in payload
serialization. -/
theorem c7_other_payload (entry_id : Int) (options : List ChoiceOption) (oo : ChoiceOption)
    (hoo : oo.other = true) (hX : ∀ o ∈ options, o.value ≠ "X") :
    choice_set_value_str options (some oo) "X" = Except.ok ⟨[], some "X"⟩ ∧
    other_payload entry_id ⟨[], some "X"⟩ =
      [(submit_id entry_id, ["__other_option__"]),
       (submit_id entry_id ++ ".other_option_response", ["X"])] := by
  have hf : options.find? (fun opt => opt.value == "X") = none := by
    apply List.find?_eq_none.mpr
    intro o ho
    simp [hX o ho]
  constructor
  · unfold choice_set_value_str set_choices_str set_choices_loop find_option_other
    rw [hf]
    simp [set_choices_loop, add_choice, hoo]
  · have hne : submit_id entry_id ≠ submit_id entry_id ++ ".other_option_response" := by
      intro h
      have hl := congrArg String.length h
      rw [String.length_append] at hl
      have h22 : (".other_option_response" : String).length = 22 := rfl
      omega
    simp [other_payload, input_payload, dict_setdefault_append, dict_assign, hne]

/-- Claim C7, witness: a concrete required Radio with entry id 123 and
options A and B. -/
theorem c7_other_payload_witness :
    choice_set_value_str [⟨"A", false⟩, ⟨"B", false⟩] (some ⟨"", true⟩) "X"
      = Except.ok ⟨[], some "X"⟩ ∧
    other_payload 123 ⟨[], some "X"⟩ =
      [("entry.123", ["__other_option__"]), ("entry.123.other_option_response", ["X"])] :=
  c7_other_payload 123 [⟨"A", false⟩, ⟨"B", false⟩] ⟨"", true⟩ rfl (by decide)

/-- Claim C8, counterexample.  A ChoiceInput without an "Other" option but
with an option whose decoded value is the empty string (Option._parse maps
a null wire value to the empty string) accepts set_value("") instead of
raising the invalid-choice error. -/
theorem c8_counterexample :
    choice_set_value_str [⟨"", false⟩] none "" = Except.ok ⟨[""], none⟩ ∧
    choice_set_value_str [⟨"", false⟩] none "" ≠ Except.error ElemError.invalidChoice := by
  decide

/-- Claim C8, amended: on a ChoiceInput without an "Other" option,
set_value("") raises the invalid-choice error precisely when no option
has the empty string as its value. -/
theorem c8_empty_string (options : List ChoiceOption) :
    choice_set_value_str options none "" = Except.error ElemError.invalidChoice ↔
      ∀ o ∈ options, o.value ≠ "" := by
  have hred : choice_set_value_str options none "" =
      (match options.find? (fun opt => opt.value == "") with
       | some opt => Except.ok (add_choice ⟨[], none⟩ opt)
       | none => Except.error ElemError.invalidChoice) := by
    unfold choice_set_value_str set_choices_str set_choices_loop find_option_other find_option
    cases hf : options.find? (fun opt => opt.value == "") <;> simp [hf, set_choices_loop]
  rw [hred]
  cases hf : options.find? (fun opt => opt.value == "") with
  | none =>
    constructor
    · intro _ o ho hv
      have hno := List.find?_eq_none.mp hf o ho
      apply hno
      rw [hv]
      decide
    · intro _
      rfl
  | some o =>
    constructor
    · intro h
      cases h
    · intro hall
      have hp := List.find?_some hf
      have hmem := List.mem_of_find?_eq_some hf
      have hval : o.value = "" := by simpa using hp
      exact absurd hval (hall o hmem)

/-- Claim C9: Duration.set_value accepts every timedelta, and a subsequent
validate() raises InvalidDuration exactly when the stored duration is
negative or at least 73 hours (262800000000 microseconds = 73 * 3600
seconds); every duration in [0, 73 hours) passes validation.  This bound
appears nowhere in the specification. -/
theorem c9_duration (micro : Int) (required : Bool) (st : DurationState)
    (h : duration_set_value (.timedeltaValue micro) = Except.ok st) :
    (duration_validate required st = Except.error ElemError.invalidDuration ↔
      micro < 0 ∨ 262800000000 ≤ micro) ∧
    (0 ≤ micro ∧ micro < 262800000000 → duration_validate required st = Except.ok ()) := by
  unfold duration_set_value at h
  cases h
  have hempty : duration_is_empty
      ⟨some (Int.fdiv (Int.tdiv micro 1000000) 3600),
       some (Int.emod (Int.fdiv (Int.tdiv micro 1000000) 60) 60),
       some (Int.emod (Int.tdiv micro 1000000) 60), some micro⟩ = false := rfl
  have hge : (73 * 3600 ≤ (micro : ℚ) / 1000000) ↔ ((262800000000 : Int) ≤ micro) := by
    rw [le_div_iff₀ (by norm_num : (0 : ℚ) < 1000000),
        show ((73 : ℚ) * 3600) * 1000000 = ((262800000000 : Int) : ℚ) by norm_num]
    exact Int.cast_le
  have hlt : ((micro : ℚ) / 1000000 < 0) ↔ micro < 0 := by
    rw [div_lt_iff₀ (by norm_num : (0 : ℚ) < 1000000),
        show (0 : ℚ) * 1000000 = ((0 : Int) : ℚ) by norm_num]
    exact Int.cast_lt
  unfold duration_validate
  rw [hempty]
  simp only [Bool.and_false, Bool.false_eq_true, if_false, ge_iff_le]
  constructor
  · by_cases hc : 73 * 3600 ≤ (micro : ℚ) / 1000000 ∨ (micro : ℚ) / 1000000 < 0
    · rw [if_pos hc]
      simp only [true_iff, iff_true_intro rfl, true_iff]
      rcases hc with hc | hc
      · exact Or.inr (hge.mp hc)
      · exact Or.inl (hlt.mp hc)
    · rw [if_neg hc]
      constructor
      · intro hcontra
        cases hcontra
      · intro hc2
        exact absurd (by rcases hc2 with hc2 | hc2
                         · exact Or.inr (hlt.mpr hc2)
                         · exact Or.inl (hge.mpr hc2)) hc
  · intro ⟨h0, hb⟩
    have hcond : ¬(73 * 3600 ≤ (micro : ℚ) / 1000000 ∨ (micro : ℚ) / 1000000 < 0) := by
      push_neg
      constructor
      · rw [div_lt_iff₀ (by norm_num : (0 : ℚ) < 1000000),
            show ((73 : ℚ) * 3600) * 1000000 = ((262800000000 : Int) : ℚ) by norm_num]
        exact_mod_cast hb
      · apply div_nonneg _ (by norm_num : (0 : ℚ) ≤ 1000000)
        exact_mod_cast h0
    rw [if_neg hcond]

/-- Claim C9, witness: a one-hour duration is stored by set_value and
passes validation on a required element. -/
theorem c9_duration_witness :
    duration_validate true ⟨some 1, some 0, some 0, some 3600000000⟩ = Except.ok () :=
  (c9_duration 3600000000 true ⟨some 1, some 0, some 0, some 3600000000⟩ (by decide)).2
    (by decide)

/-- Claim C10: a Short element accepts any non-empty string via set_value,
and validation raises InvalidText exactly when the stored value contains a
newline; the base entry check used by Paragraph accepts the same value,
so the restriction does not apply to Paragraph. -/
theorem c10_short_newline (s : String) (required : Bool) (h : s ≠ "") :
    text_set_value (.strValue s) = Except.ok [s] ∧
    (short_validate_entry required [s] = Except.error ElemError.invalidText ↔
      s.data.contains '\n' = true) ∧
    input_validate_entry required [s] = Except.ok () := by
  refine ⟨?_, ?_, ?_⟩
  · show (if s = "" then Except.ok [] else Except.ok [s]) = Except.ok [s]
    rw [if_neg h]
  · unfold short_validate_entry input_validate_entry
    by_cases hc : s.data.contains '\n' <;> simp [hc]
  · unfold input_validate_entry
    simp

/-- Claim C10, witness: the string "a\nb" is accepted by set_value and is
rejected as InvalidText by the Short entry check. -/
theorem c10_short_newline_witness :
    text_set_value (.strValue "a\nb") = Except.ok ["a\nb"] ∧
    short_validate_entry true ["a\nb"] = Except.error ElemError.invalidText :=
  ⟨(c10_short_newline "a\nb" true (by decide)).1,
   ((c10_short_newline "a\nb" true (by decide)).2.1).mpr (by decide)⟩
